import Mathlib

/-!
# DisplayOledJoystick: a shallow embedding of `DisplayC.c`

The embedding covers the interrupt callback `gpio_callback` (debounce and
toggle state), the PWM gate `pwm_set_duty`, the linear map `map_value`, the
drawing routines `draw_square`, `draw_border`, `update_display`, and the body
of the `while (true)` loop of `main`.

Conventions.
* `uint32_t`/`uint16_t` values are natural numbers, with the wrap-around
  written out (`% 4294967296`, `% 65536`) where the C code can wrap.
* `int` values are integers; `/` and `%` of C are `Int.tdiv` and `Int.tmod`
  (truncation toward zero).
* Calls into the SDK and the display library are recorded, in program order,
  as a list of `Effect`s.  The clock reading `time_us_32()` and the two
  `adc_read()` samples are inputs of the functions that consume them.
-/

namespace DisplayC

/-! ## Constants (`#define`s, lines 24-44 and 73-76) -/

def WIDTH : Int := 128
def HEIGHT : Int := 64

def LED_G : Nat := 11
def LED_B : Nat := 12
def LED_R : Nat := 13
def BTN_A : Nat := 5
def BTN_B : Nat := 6
def JOYSTICK_BTN : Nat := 22

def ADC_MAX : Int := 4095
def ADC_CENTER : Nat := 2048

def debounce_delay_us : Nat := 200000

def BORDER_NONE : Int := 0
def BORDER_SOLID : Int := 1
def BORDER_DOTTED : Int := 2
def BORDER_DOUBLE : Int := 3

/-! ## Observable effects -/

/-- One call of `ssd1306_rect(&ssd, a0, a1, a2, a3, value, fill)`: the four
numeric arguments in the order they are written at the call site. -/
structure RectCall where
  a0 : Int
  a1 : Int
  a2 : Int
  a3 : Int
  value : Bool
  fill : Bool
  deriving DecidableEq, Repr

/-- Calls that leave the translation unit, in the order they are issued.
`pwm_set_chan_level gpio level` stands for
`pwm_set_chan_level(pwm_gpio_to_slice_num(gpio), pwm_gpio_to_channel(gpio), level)`. -/
inductive Effect where
  | printf_btn_a (pwm : Bool)
  | printf_js_btn (led : Bool) (borda : Int)
  | gpio_put (gpio : Nat) (value : Bool)
  | pwm_set_chan_level (gpio : Nat) (level : Nat)
  | ssd1306_fill (value : Bool)
  | ssd1306_rect (r : RectCall)
  | ssd1306_send_data
  | sleep_ms (ms : Nat)
  deriving DecidableEq, Repr

/-! ## Global state (lines 42-49) -/

/-- The five mutable globals of the program. -/
structure State where
  ultimo_tempo_a : Nat
  ultimo_tempo_js : Nat
  ledG_state : Bool
  g_pwm_active : Bool
  g_border_style : Int
  deriving DecidableEq, Repr

/-- The globals as initialised by their declarations. -/
def State.init : State :=
  { ultimo_tempo_a := 0
    ultimo_tempo_js := 0
    ledG_state := false
    g_pwm_active := true
    g_border_style := 0 }

/-- Subtraction of two `uint32_t` values, as C computes it. -/
def sub_u32 (a b : Nat) : Nat :=
  (a % 4294967296 + (4294967296 - b % 4294967296)) % 4294967296

/-! ## `map_value` (lines 119-121) -/

/-- The C function `map_value`; the `int` division truncates toward zero. -/
def map_value (val in_min in_max out_min out_max : Int) : Int :=
  Int.tdiv ((val - in_min) * (out_max - out_min)) (in_max - in_min) + out_min

/-! ## `pwm_set_duty` (lines 143-150) -/

/-- The level `pwm_set_duty` passes on: `duty`, or `0` when PWM is inactive
and the pin is one of the two PWM LEDs. -/
def pwm_set_duty_level (s : State) (gpio : Nat) (duty : Nat) : Nat :=
  if (!s.g_pwm_active) && (gpio == LED_R || gpio == LED_B) then 0 else duty

/-- The C function `pwm_set_duty`. -/
def pwm_set_duty (s : State) (gpio : Nat) (duty : Nat) : List Effect :=
  [Effect.pwm_set_chan_level gpio (pwm_set_duty_level s gpio duty)]

/-! ## Drawing (lines 78-114 and 159-173) -/

/-- The loop counters `i = 0; i < bound; i += 2`. -/
def even_steps (bound : Int) : List Int :=
  ((List.range bound.toNat).filter (fun i => i % 2 == 0)).map (fun i => (i : Int))

/-- The C function `draw_border`: the `ssd1306_rect` calls it issues. -/
def draw_border (style : Int) : List RectCall :=
  if style = BORDER_SOLID then
    [ ⟨0, 1, WIDTH, 1, true, true⟩,
      ⟨63, 1, WIDTH, 1, true, true⟩,
      ⟨0, WIDTH - 2, 1, HEIGHT, true, true⟩,
      ⟨WIDTH, 0, 1, HEIGHT, true, true⟩ ]
  else if style = BORDER_DOTTED then
    (even_steps WIDTH).foldr
        (fun i acc => ⟨i, 0, 1, 1, true, true⟩ :: ⟨i, HEIGHT * 2 - 1, 1, 1, true, true⟩ :: acc) []
      ++
    (even_steps (HEIGHT * 2)).foldr
        (fun i acc => ⟨0, i, 1, 1, true, true⟩ :: ⟨WIDTH - 1, i, 1, 1, true, true⟩ :: acc) []
  else if style = BORDER_DOUBLE then
    [ ⟨0, 0, WIDTH, 1, true, true⟩,
      ⟨63, 0, WIDTH, 1, true, true⟩,
      ⟨0, 0, 1, HEIGHT, true, true⟩,
      ⟨0, 127, 1, HEIGHT, true, true⟩,
      ⟨2, 2, WIDTH - 4, 1, true, true⟩,
      ⟨61, 0, WIDTH - 4, 1, true, true⟩,
      ⟨2, 2, 1, HEIGHT - 4, true, true⟩,
      ⟨2, 125, 1, HEIGHT - 4, true, true⟩ ]
  else
    []

/-- The C function `draw_square`. -/
def draw_square (sx sy : Int) : List RectCall :=
  [⟨sx, sy, 8, 8, true, true⟩]

/-- The C function `update_display`. -/
def update_display (sx sy border_style : Int) : List Effect :=
  [Effect.ssd1306_fill false]
    ++ (draw_square sx sy).map Effect.ssd1306_rect
    ++ (draw_border border_style).map Effect.ssd1306_rect
    ++ [Effect.ssd1306_send_data]

/-! ## `gpio_callback` (lines 180-205) -/

/-- The C function `gpio_callback`; `agora` is the value `time_us_32()`
returns at entry (the parameter `events` is not read by the body).  The
result is the new globals and the calls issued. -/
def gpio_callback (agora : Nat) (gpio : Nat) (s : State) : State × List Effect :=
  if gpio = BTN_A then
    if sub_u32 agora s.ultimo_tempo_a > debounce_delay_us then
      let s1 := { s with ultimo_tempo_a := agora, g_pwm_active := !s.g_pwm_active }
      (s1, [Effect.printf_btn_a s1.g_pwm_active])
    else
      (s, [])
  else if gpio = JOYSTICK_BTN then
    if sub_u32 agora s.ultimo_tempo_js > debounce_delay_us then
      let led := !s.ledG_state
      let borda := Int.tmod (s.g_border_style + 1) 4
      ({ s with ultimo_tempo_js := agora, ledG_state := led, g_border_style := borda },
       [Effect.gpio_put LED_G led, Effect.printf_js_btn led borda])
    else
      (s, [])
  else
    (s, [])

/-! ## The body of the main loop (lines 264-288) -/

/-- The locals of one loop iteration together with the calls it issues. -/
structure Iteration where
  diff_x : Nat
  diff_y : Nat
  duty_r : Nat
  duty_b : Nat
  square_x : Int
  square_y : Int
  effects : List Effect
  deriving DecidableEq, Repr

/-- Lines 271-272: distance of a sample from `ADC_CENTER`. -/
def main_diff (adc : Nat) : Nat :=
  if adc > ADC_CENTER then adc - ADC_CENTER else ADC_CENTER - adc

/-- Lines 273-276: `diff * 32`, limited to 65535.  For a 16-bit sample the
product is below 2^21, so neither the `int` product nor its conversion to
`uint32_t` wraps. -/
def main_duty (adc : Nat) : Nat :=
  let duty := main_diff adc * 32
  if duty > 65535 then 65535 else duty

/-- One pass through the `while (true)` body, for the samples `x_adc` and
`y_adc` returned by the two `adc_read()` calls, with the globals `s` read
during that pass (no interrupt is delivered in between). -/
def main_loop_body (s : State) (x_adc y_adc : Nat) : Iteration :=
  let diff_x := main_diff x_adc
  let diff_y := main_diff y_adc
  let duty_r := main_duty x_adc
  let duty_b := main_duty y_adc
  let square_x := map_value x_adc ADC_MAX 0 0 (HEIGHT - 8)
  let square_y := map_value y_adc ADC_MAX 0 (WIDTH - 8) 0
  { diff_x := diff_x
    diff_y := diff_y
    duty_r := duty_r
    duty_b := duty_b
    square_x := square_x
    square_y := square_y
    effects :=
      pwm_set_duty s LED_R (duty_r % 65536)
        ++ pwm_set_duty s LED_B (duty_b % 65536)
        ++ update_display square_x square_y s.g_border_style
        ++ [Effect.sleep_ms 40] }

/-! ## Running a sequence of interrupts -/

/-- Delivers the interrupts `(agora, gpio)` one after the other, starting in
`s`; the calls issued are concatenated in order. -/
def run_callbacks : List (Nat × Nat) → State → State × List Effect
  | [], s => (s, [])
  | (agora, gpio) :: rest, s =>
      let r := gpio_callback agora gpio s
      let q := run_callbacks rest r.1
      (q.1, r.2 ++ q.2)

/-! ## Observations on a list of effects -/

/-- True on the `printf` that closes the toggle branch of button `gpio`. -/
def is_toggle_of (gpio : Nat) : Effect → Bool
  | Effect.printf_btn_a _ => gpio == BTN_A
  | Effect.printf_js_btn _ _ => gpio == JOYSTICK_BTN
  | _ => false

/-- Number of times the toggle branch of button `gpio` ran. -/
def toggle_count (gpio : Nat) (es : List Effect) : Nat :=
  es.countP (is_toggle_of gpio)

/-- The `(gpio, level)` pair of a PWM write, nothing for any other call. -/
def pwm_write_of : Effect → Option (Nat × Nat)
  | Effect.pwm_set_chan_level gpio level => some (gpio, level)
  | _ => none

/-- The `(gpio, level)` pairs written to the PWM hardware, in order. -/
def pwm_writes (es : List Effect) : List (Nat × Nat) :=
  es.filterMap pwm_write_of

/-- The successor of a border style in the order the specification gives:
NONE, SOLID, DOTTED, DOUBLE and back to NONE. -/
def spec_border_next (b : Int) : Int :=
  if b = BORDER_NONE then BORDER_SOLID
  else if b = BORDER_SOLID then BORDER_DOTTED
  else if b = BORDER_DOTTED then BORDER_DOUBLE
  else BORDER_NONE

/-- Modelled from the spec: `ssd1306_rect` is declared in `inc/ssd1306.h`,
which is not among the sources.  Section 6 of the specification gives the
display contract as `draw_rect(x,y,w,h,filled,color)`; under that order a call
stays inside the 128x64 buffer when the following holds. -/
def rect_inside_xywh (r : RectCall) : Prop :=
  0 ≤ r.a0 ∧ 0 ≤ r.a1 ∧ 0 ≤ r.a2 ∧ 0 ≤ r.a3 ∧ r.a0 + r.a2 ≤ WIDTH ∧ r.a1 + r.a3 ≤ HEIGHT

instance (r : RectCall) : Decidable (rect_inside_xywh r) := by
  unfold rect_inside_xywh; infer_instance

/-- Modelled from the spec: the other order, `(top, left, width, height)`,
under which the cursor square at `(square_x, square_y)` with
`square_x ≤ HEIGHT - 8` and `square_y ≤ WIDTH - 8` touches but never leaves
the buffer, as section 4.3 requires. -/
def rect_inside_tlwh (r : RectCall) : Prop :=
  0 ≤ r.a0 ∧ 0 ≤ r.a1 ∧ 0 ≤ r.a2 ∧ 0 ≤ r.a3 ∧ r.a1 + r.a2 ≤ WIDTH ∧ r.a0 + r.a3 ≤ HEIGHT

instance (r : RectCall) : Decidable (rect_inside_tlwh r) := by
  unfold rect_inside_tlwh; infer_instance

/-! ## Auxiliary facts -/

/-- Truncating division of a non-positive by a negative number. -/
theorem tdiv_neg_neg_eq (a b : Int) (ha : 0 ≤ a) (hb : 0 ≤ b) :
    Int.tdiv (-a) (-b) = a / b := by
  rw [Int.neg_tdiv_neg, Int.tdiv_eq_ediv ha hb]

/-- Closed form of the vertical cursor coordinate. -/
theorem map_value_x_closed (x : Int) (h1 : x ≤ 4095) :
    map_value x 4095 0 0 56 = (4095 - x) * 56 / 4095 := by
  unfold map_value
  have e1 : (x - 4095) * (56 - 0) = -((4095 - x) * 56) := by ring
  have e2 : (0 : Int) - 4095 = -4095 := by norm_num
  rw [e1, e2, tdiv_neg_neg_eq _ _ (by nlinarith) (by norm_num)]
  simp

/-- Closed form of the horizontal cursor coordinate. -/
theorem map_value_y_closed (y : Int) (h1 : y ≤ 4095) :
    map_value y 4095 0 120 0 = 120 - (4095 - y) * 120 / 4095 := by
  unfold map_value
  have e1 : (y - 4095) * (0 - 120) = (4095 - y) * 120 := by ring
  have e2 : (0 : Int) - 4095 = -4095 := by norm_num
  rw [e1, e2, Int.tdiv_neg, Int.tdiv_eq_ediv (by nlinarith) (by norm_num)]
  ring

/-- The closed form of `sub_u32` on integers. -/
theorem sub_u32_eq_emod (a b : Nat) :
    ((sub_u32 a b : Nat) : Int) = ((a : Int) - (b : Int)) % 4294967296 := by
  unfold sub_u32
  omega

/-- On clock readings that did not wrap, `sub_u32` is plain subtraction. -/
theorem sub_u32_of_le (a b : Nat) (hab : b ≤ a) (ha : a < 4294967296) :
    sub_u32 a b = a - b := by
  unfold sub_u32
  omega

/-- The loop computes `square_x` by the call `map_value(x_adc, 4095, 0, 0, 56)`. -/
theorem square_x_eq (s : State) (x y : Nat) :
    (main_loop_body s x y).square_x = map_value (x : Int) 4095 0 0 56 := rfl

/-- The loop computes `square_y` by the call `map_value(y_adc, 4095, 0, 120, 0)`. -/
theorem square_y_eq (s : State) (x y : Nat) :
    (main_loop_body s x y).square_y = map_value (y : Int) 4095 0 120 0 := rfl

/-- The PWM writes of one loop iteration: red first, then blue. -/
theorem main_loop_body_pwm_writes (s : State) (x y : Nat) :
    pwm_writes (main_loop_body s x y).effects =
      [ (LED_R, pwm_set_duty_level s LED_R (main_duty x % 65536)),
        (LED_B, pwm_set_duty_level s LED_B (main_duty y % 65536)) ] := by
  have hmap : ∀ l : List RectCall, (l.map Effect.ssd1306_rect).filterMap pwm_write_of = [] := by
    intro l
    induction l with
    | nil => rfl
    | cons r l ih => simp [pwm_write_of]
  simp [main_loop_body, pwm_set_duty, update_display, pwm_writes, List.filterMap_append,
    hmap, pwm_write_of]

/-- An accepted trigger of Button A. -/
theorem gpio_callback_btn_a_accept (s : State) (agora : Nat)
    (h : sub_u32 agora s.ultimo_tempo_a > debounce_delay_us) :
    gpio_callback agora BTN_A s =
      ({ s with ultimo_tempo_a := agora, g_pwm_active := !s.g_pwm_active },
       [Effect.printf_btn_a (!s.g_pwm_active)]) := by
  simp [gpio_callback, h]

/-- A rejected trigger of Button A. -/
theorem gpio_callback_btn_a_reject (s : State) (agora : Nat)
    (h : ¬ sub_u32 agora s.ultimo_tempo_a > debounce_delay_us) :
    gpio_callback agora BTN_A s = (s, []) := by
  simp [gpio_callback, h]

/-- An accepted trigger of the joystick button. -/
theorem gpio_callback_js_accept (s : State) (agora : Nat)
    (h : sub_u32 agora s.ultimo_tempo_js > debounce_delay_us) :
    gpio_callback agora JOYSTICK_BTN s =
      ({ s with ultimo_tempo_js := agora, ledG_state := !s.ledG_state,
                g_border_style := Int.tmod (s.g_border_style + 1) 4 },
       [Effect.gpio_put LED_G (!s.ledG_state),
        Effect.printf_js_btn (!s.ledG_state) (Int.tmod (s.g_border_style + 1) 4)]) := by
  simp [gpio_callback, h, JOYSTICK_BTN, BTN_A]

/-- A rejected trigger of the joystick button. -/
theorem gpio_callback_js_reject (s : State) (agora : Nat)
    (h : ¬ sub_u32 agora s.ultimo_tempo_js > debounce_delay_us) :
    gpio_callback agora JOYSTICK_BTN s = (s, []) := by
  simp [gpio_callback, h, JOYSTICK_BTN, BTN_A]

/-- On the four styles `(b + 1) % 4` is the successor the specification names. -/
theorem tmod_step_eq_spec_next (b : Int) (hlo : 0 ≤ b) (hhi : b ≤ 3) :
    Int.tmod (b + 1) 4 = spec_border_next b := by
  interval_cases b <;> decide

/-- The successor of one of the four styles is one of the four styles. -/
theorem spec_border_next_range (b : Int) :
    0 ≤ spec_border_next b ∧ spec_border_next b ≤ 3 := by
  unfold spec_border_next
  split_ifs <;> decide

/-- Four successors lead back to the style one started from. -/
theorem spec_border_next_four (b : Int) (hlo : 0 ≤ b) (hhi : b ≤ 3) :
    spec_border_next (spec_border_next (spec_border_next (spec_border_next b))) = b := by
  interval_cases b <;> decide

/-- One interrupt keeps the border style among the four styles. -/
theorem gpio_callback_border_range (s : State) (agora gpio : Nat)
    (hlo : 0 ≤ s.g_border_style) (hhi : s.g_border_style ≤ 3) :
    0 ≤ (gpio_callback agora gpio s).1.g_border_style
      ∧ (gpio_callback agora gpio s).1.g_border_style ≤ 3 := by
  unfold gpio_callback
  split_ifs
  · exact ⟨hlo, hhi⟩
  · exact ⟨hlo, hhi⟩
  · simpa [tmod_step_eq_spec_next _ hlo hhi] using spec_border_next_range s.g_border_style
  · exact ⟨hlo, hhi⟩
  · exact ⟨hlo, hhi⟩

/-- Any sequence of interrupts keeps the border style among the four styles. -/
theorem run_callbacks_border_range (events : List (Nat × Nat)) :
    ∀ s : State, 0 ≤ s.g_border_style → s.g_border_style ≤ 3 →
      0 ≤ (run_callbacks events s).1.g_border_style
        ∧ (run_callbacks events s).1.g_border_style ≤ 3 := by
  induction events with
  | nil => intro s hlo hhi; exact ⟨hlo, hhi⟩
  | cons e rest ih =>
    intro s hlo hhi
    obtain ⟨agora, gpio⟩ := e
    have h := gpio_callback_border_range s agora gpio hlo hhi
    exact ih _ h.1 h.2

/-! ## The claims -/

/-- C1 as stated fails: from the initial state, two Button A triggers 1000 us
apart at 1000 and 2000 produce no toggle (not one), and two triggers 299000 us
apart at 1000 and 300000 produce one toggle (not two). -/
theorem early_trigger_is_dropped :
    (1000 ≤ 2000 ∧ 2000 - 1000 < debounce_delay_us
        ∧ toggle_count BTN_A (run_callbacks [(1000, BTN_A), (2000, BTN_A)] State.init).2 = 0)
      ∧ (1000 ≤ 300000 ∧ 300000 - 1000 > debounce_delay_us
        ∧ toggle_count BTN_A
            (run_callbacks [(1000, BTN_A), (300000, BTN_A)] State.init).2 = 1) := by
  decide

/-- C1 amended: from the initial state, for either button and clock readings
`t1 ≤ t2`, the callback at `t1` and then at `t2` toggles that button's state
exactly once when `t2 - t1 < 200000` and `t2 > 200000` (one of the two
triggers is then accepted against the initial timestamp 0), and exactly twice
when `t2 - t1 > 200000` and `t1 > 200000` (the first trigger is then itself
accepted).  One toggle of Button A leaves `g_pwm_active` flipped to false, two
leave it flipped back to true; one toggle of the joystick button leaves
`ledG_state` true and the style at 1, two leave `ledG_state` false and the
style at 2; the timestamp is that of the last accepted trigger. -/
theorem debounce_two_triggers (t1 t2 : Nat) (h12 : t1 ≤ t2) (h2 : t2 < 4294967296) :
    (t2 - t1 < debounce_delay_us → debounce_delay_us < t2 →
        run_callbacks [(t1, BTN_A), (t2, BTN_A)] State.init =
            ({ State.init with
                ultimo_tempo_a := if debounce_delay_us < t1 then t1 else t2,
                g_pwm_active := false },
             [Effect.printf_btn_a false])
          ∧ toggle_count BTN_A (run_callbacks [(t1, BTN_A), (t2, BTN_A)] State.init).2 = 1
          ∧ run_callbacks [(t1, JOYSTICK_BTN), (t2, JOYSTICK_BTN)] State.init =
            ({ State.init with
                ultimo_tempo_js := if debounce_delay_us < t1 then t1 else t2,
                ledG_state := true, g_border_style := 1 },
             [Effect.gpio_put LED_G true, Effect.printf_js_btn true 1])
          ∧ toggle_count JOYSTICK_BTN
              (run_callbacks [(t1, JOYSTICK_BTN), (t2, JOYSTICK_BTN)] State.init).2 = 1)
      ∧ (t2 - t1 > debounce_delay_us → debounce_delay_us < t1 →
        run_callbacks [(t1, BTN_A), (t2, BTN_A)] State.init =
            ({ State.init with ultimo_tempo_a := t2, g_pwm_active := true },
             [Effect.printf_btn_a false, Effect.printf_btn_a true])
          ∧ toggle_count BTN_A (run_callbacks [(t1, BTN_A), (t2, BTN_A)] State.init).2 = 2
          ∧ run_callbacks [(t1, JOYSTICK_BTN), (t2, JOYSTICK_BTN)] State.init =
            ({ State.init with ultimo_tempo_js := t2, ledG_state := false, g_border_style := 2 },
             [Effect.gpio_put LED_G true, Effect.printf_js_btn true 1,
              Effect.gpio_put LED_G false, Effect.printf_js_btn false 2])
          ∧ toggle_count JOYSTICK_BTN
              (run_callbacks [(t1, JOYSTICK_BTN), (t2, JOYSTICK_BTN)] State.init).2 = 2) := by
  have e1 : sub_u32 t1 0 = t1 := by
    have := sub_u32_of_le t1 0 (Nat.zero_le _) (by omega)
    simpa using this
  have e2 : sub_u32 t2 t1 = t2 - t1 := sub_u32_of_le t2 t1 h12 h2
  have e3 : sub_u32 t2 0 = t2 := by
    have := sub_u32_of_le t2 0 (Nat.zero_le _) h2
    simpa using this
  have m1 : Int.tmod 1 4 = 1 := by decide
  have m2 : Int.tmod 2 4 = 2 := by decide
  have m3 : Int.tmod (1 + 1) 4 = 2 := by decide
  constructor
  · intro hlt hw
    have hc : ¬ (debounce_delay_us < t2 - t1) := by omega
    by_cases ht : debounce_delay_us < t1
    · simp [run_callbacks, gpio_callback, State.init, e1, e2, ht, hc, toggle_count,
        is_toggle_of, JOYSTICK_BTN, BTN_A, m1]
    · simp [run_callbacks, gpio_callback, State.init, e1, e3, ht, hw, toggle_count,
        is_toggle_of, JOYSTICK_BTN, BTN_A, m1]
  · intro hgt ht
    have hc : debounce_delay_us < t2 - t1 := hgt
    simp [run_callbacks, gpio_callback, State.init, e1, e2, ht, hc, toggle_count,
      is_toggle_of, JOYSTICK_BTN, BTN_A, m1, m2, m3]

/-- Witness for C1 amended: readings 150000 and 250000, less than the window
apart with the second past it, give one toggle of either button; readings
300000 and 600000 give two. -/
theorem debounce_two_triggers_witness :
    (run_callbacks [(150000, BTN_A), (250000, BTN_A)] State.init =
          ({ State.init with ultimo_tempo_a := 250000, g_pwm_active := false },
           [Effect.printf_btn_a false])
        ∧ toggle_count JOYSTICK_BTN
            (run_callbacks [(150000, JOYSTICK_BTN), (250000, JOYSTICK_BTN)] State.init).2 = 1)
      ∧ (run_callbacks [(300000, JOYSTICK_BTN), (600000, JOYSTICK_BTN)] State.init =
          ({ State.init with ultimo_tempo_js := 600000, ledG_state := false,
                             g_border_style := 2 },
           [Effect.gpio_put LED_G true, Effect.printf_js_btn true 1,
            Effect.gpio_put LED_G false, Effect.printf_js_btn false 2])
        ∧ toggle_count BTN_A
            (run_callbacks [(300000, BTN_A), (600000, BTN_A)] State.init).2 = 2) :=
  have h1 := (debounce_two_triggers 150000 250000 (by decide) (by decide)).1
    (by decide) (by decide)
  have h2 := (debounce_two_triggers 300000 600000 (by decide) (by decide)).2
    (by decide) (by decide)
  ⟨⟨h1.1.trans (by decide), h1.2.2.2⟩, ⟨h2.2.2.1, h2.2.1⟩⟩

/-- C2: in a state whose border style is one of 0..3, an accepted
joystick-button trigger moves `g_border_style` to its successor in the cycle
NONE, SOLID, DOTTED, DOUBLE, NONE, flips `ledG_state`, drives `LED_G` to the
new value, and leaves `g_pwm_active` and Button A's timestamp alone; four
accepted triggers in a row restore the style; and from the initial state no
sequence of interrupts takes the style out of 0..3. -/
theorem joystick_trigger_cycles_border (s : State) (t1 t2 t3 t4 : Nat)
    (events : List (Nat × Nat))
    (hlo : 0 ≤ s.g_border_style) (hhi : s.g_border_style ≤ 3)
    (h1 : sub_u32 t1 s.ultimo_tempo_js > debounce_delay_us)
    (h2 : sub_u32 t2 t1 > debounce_delay_us)
    (h3 : sub_u32 t3 t2 > debounce_delay_us)
    (h4 : sub_u32 t4 t3 > debounce_delay_us) :
    (gpio_callback t1 JOYSTICK_BTN s).1.g_border_style = spec_border_next s.g_border_style
      ∧ (gpio_callback t1 JOYSTICK_BTN s).1.ledG_state = (!s.ledG_state)
      ∧ (gpio_callback t1 JOYSTICK_BTN s).2 =
          [Effect.gpio_put LED_G (!s.ledG_state),
           Effect.printf_js_btn (!s.ledG_state) (spec_border_next s.g_border_style)]
      ∧ (gpio_callback t1 JOYSTICK_BTN s).1.g_pwm_active = s.g_pwm_active
      ∧ (gpio_callback t1 JOYSTICK_BTN s).1.ultimo_tempo_a = s.ultimo_tempo_a
      ∧ toggle_count JOYSTICK_BTN
          (run_callbacks
            [(t1, JOYSTICK_BTN), (t2, JOYSTICK_BTN), (t3, JOYSTICK_BTN), (t4, JOYSTICK_BTN)]
            s).2 = 4
      ∧ (run_callbacks
            [(t1, JOYSTICK_BTN), (t2, JOYSTICK_BTN), (t3, JOYSTICK_BTN), (t4, JOYSTICK_BTN)]
            s).1.g_border_style = s.g_border_style
      ∧ (0 ≤ (run_callbacks events State.init).1.g_border_style
          ∧ (run_callbacks events State.init).1.g_border_style ≤ 3) := by
  have n0 := tmod_step_eq_spec_next s.g_border_style hlo hhi
  have r1 := spec_border_next_range s.g_border_style
  have n1 := tmod_step_eq_spec_next _ r1.1 r1.2
  have r2 := spec_border_next_range (spec_border_next s.g_border_style)
  have n2 := tmod_step_eq_spec_next _ r2.1 r2.2
  have r3 := spec_border_next_range (spec_border_next (spec_border_next s.g_border_style))
  have n3 := tmod_step_eq_spec_next _ r3.1 r3.2
  have four := spec_border_next_four s.g_border_style hlo hhi
  have a1 := gpio_callback_js_accept s t1 h1
  refine ⟨?_, ?_, ?_, ?_, ?_, ?_, ?_, ?_⟩
  · rw [a1, n0]
  · rw [a1]
  · rw [a1, n0]
  · rw [a1]
  · rw [a1]
  · simp [run_callbacks, gpio_callback, h1, h2, h3, h4, toggle_count, is_toggle_of,
      JOYSTICK_BTN, BTN_A]
  · simp [run_callbacks, gpio_callback, h1, h2, h3, h4, JOYSTICK_BTN, BTN_A, n0, n1, n2, n3,
      four]
  · exact run_callbacks_border_range events State.init (by decide) (by decide)

/-- Witness for C2: style SOLID, triggers at 300000, 600000, 900000 and
1200000, and a mixed sequence of interrupts from the initial state. -/
theorem joystick_trigger_cycles_border_witness :
    (gpio_callback 300000 JOYSTICK_BTN { State.init with g_border_style := 1 }).1.g_border_style
        = spec_border_next 1
      ∧ (run_callbacks
            [(300000, JOYSTICK_BTN), (600000, JOYSTICK_BTN), (900000, JOYSTICK_BTN),
             (1200000, JOYSTICK_BTN)]
            { State.init with g_border_style := 1 }).1.g_border_style = 1
      ∧ (0 ≤ (run_callbacks [(300000, JOYSTICK_BTN), (300001, BTN_A)]
              State.init).1.g_border_style) :=
  have h := joystick_trigger_cycles_border { State.init with g_border_style := 1 }
    300000 600000 900000 1200000 [(300000, JOYSTICK_BTN), (300001, BTN_A)]
    (by decide) (by decide) (by decide) (by decide) (by decide) (by decide)
  ⟨h.1, h.2.2.2.2.2.2.1, h.2.2.2.2.2.2.2.1⟩

/-- C8: for either button, every state and every clock reading, the callback
accepts the trigger exactly when `now - last_trigger_time` modulo 2^32 exceeds
200000; on acceptance the button's timestamp becomes `now` and its one toggle
is applied (Button A flips `g_pwm_active`; the joystick button flips
`ledG_state`, drives `LED_G` and advances the style); on rejection the state is
returned unchanged and nothing is issued; a call for any other pin changes
nothing. -/
theorem gpio_callback_debounce (s : State) (agora gpio : Nat)
    (hg1 : gpio ≠ BTN_A) (hg2 : gpio ≠ JOYSTICK_BTN) :
    gpio_callback agora BTN_A s =
        (if ((agora : Int) - (s.ultimo_tempo_a : Int)) % 4294967296 > 200000 then
          ({ s with ultimo_tempo_a := agora, g_pwm_active := !s.g_pwm_active },
           [Effect.printf_btn_a (!s.g_pwm_active)])
        else (s, []))
      ∧ gpio_callback agora JOYSTICK_BTN s =
        (if ((agora : Int) - (s.ultimo_tempo_js : Int)) % 4294967296 > 200000 then
          ({ s with ultimo_tempo_js := agora, ledG_state := !s.ledG_state,
                    g_border_style := Int.tmod (s.g_border_style + 1) 4 },
           [Effect.gpio_put LED_G (!s.ledG_state),
            Effect.printf_js_btn (!s.ledG_state) (Int.tmod (s.g_border_style + 1) 4)])
        else (s, []))
      ∧ toggle_count BTN_A (gpio_callback agora BTN_A s).2 =
        (if ((agora : Int) - (s.ultimo_tempo_a : Int)) % 4294967296 > 200000 then 1 else 0)
      ∧ toggle_count JOYSTICK_BTN (gpio_callback agora JOYSTICK_BTN s).2 =
        (if ((agora : Int) - (s.ultimo_tempo_js : Int)) % 4294967296 > 200000 then 1 else 0)
      ∧ gpio_callback agora gpio s = (s, []) := by
  have ea := sub_u32_eq_emod agora s.ultimo_tempo_a
  have ej := sub_u32_eq_emod agora s.ultimo_tempo_js
  have ca : (((agora : Int) - (s.ultimo_tempo_a : Int)) % 4294967296 > 200000)
      ↔ sub_u32 agora s.ultimo_tempo_a > debounce_delay_us := by
    unfold debounce_delay_us; omega
  have cj : (((agora : Int) - (s.ultimo_tempo_js : Int)) % 4294967296 > 200000)
      ↔ sub_u32 agora s.ultimo_tempo_js > debounce_delay_us := by
    unfold debounce_delay_us; omega
  simp only [ca, cj]
  refine ⟨?_, ?_, ?_, ?_, ?_⟩
  · by_cases h : sub_u32 agora s.ultimo_tempo_a > debounce_delay_us
    · rw [if_pos h, gpio_callback_btn_a_accept s agora h]
    · rw [if_neg h, gpio_callback_btn_a_reject s agora h]
  · by_cases h : sub_u32 agora s.ultimo_tempo_js > debounce_delay_us
    · rw [if_pos h, gpio_callback_js_accept s agora h]
    · rw [if_neg h, gpio_callback_js_reject s agora h]
  · by_cases h : sub_u32 agora s.ultimo_tempo_a > debounce_delay_us
    · rw [if_pos h, gpio_callback_btn_a_accept s agora h]
      simp [toggle_count, is_toggle_of]
    · rw [if_neg h, gpio_callback_btn_a_reject s agora h]
      simp [toggle_count]
  · by_cases h : sub_u32 agora s.ultimo_tempo_js > debounce_delay_us
    · rw [if_pos h, gpio_callback_js_accept s agora h]
      simp [toggle_count, is_toggle_of]
    · rw [if_neg h, gpio_callback_js_reject s agora h]
      simp [toggle_count]
  · simp [gpio_callback, hg1, hg2]

/-- Witness for C8: a clock that wrapped (last trigger at 4294967000, now 100)
and an interrupt on pin 6. -/
theorem gpio_callback_debounce_witness :
    gpio_callback 100 BTN_A { State.init with ultimo_tempo_a := 4294967000 }
        = ({ State.init with ultimo_tempo_a := 4294967000 }, [])
      ∧ gpio_callback 100 BTN_B { State.init with ultimo_tempo_a := 4294967000 }
        = ({ State.init with ultimo_tempo_a := 4294967000 }, []) :=
  have h := gpio_callback_debounce { State.init with ultimo_tempo_a := 4294967000 } 100 BTN_B
    (by decide) (by decide)
  ⟨h.1.trans (by decide), h.2.2.2.2⟩

/-- C9 fails on the code: for SOLID `draw_border` issues the four calls
`(0,1,128,1)`, `(63,1,128,1)`, `(0,126,1,64)` and `(128,0,1,64)`.  Whichever
of the two argument orders `ssd1306_rect` has, not all four lie inside the
128x64 buffer (the last one starts at coordinate 128), whereas the four outer
calls of DOUBLE, `(0,0,128,1)`, `(63,0,128,1)`, `(0,0,1,64)` and
`(0,127,1,64)`, are the frame and lie inside it under the order
`(top, left, width, height)`. -/
theorem draw_border_solid_leaves_buffer :
    draw_border BORDER_SOLID =
        [ ⟨0, 1, 128, 1, true, true⟩, ⟨63, 1, 128, 1, true, true⟩,
          ⟨0, 126, 1, 64, true, true⟩, ⟨128, 0, 1, 64, true, true⟩ ]
      ∧ ¬ (∀ r ∈ draw_border BORDER_SOLID, rect_inside_xywh r)
      ∧ ¬ (∀ r ∈ draw_border BORDER_SOLID, rect_inside_tlwh r)
      ∧ (draw_border BORDER_DOUBLE).take 4 =
        [ ⟨0, 0, 128, 1, true, true⟩, ⟨63, 0, 128, 1, true, true⟩,
          ⟨0, 0, 1, 64, true, true⟩, ⟨0, 127, 1, 64, true, true⟩ ]
      ∧ (∀ r ∈ (draw_border BORDER_DOUBLE).take 4, rect_inside_tlwh r) := by
  decide

/-- C3: with `g_pwm_active` false, the two PWM writes of a loop iteration (to
`LED_R` and to `LED_B`) carry level 0 for all samples, those in `[0,4095]`
included, and `pwm_set_duty` on either of these pins writes level 0 for every
duty, the 16-bit ones included. -/
theorem pwm_inactive_forces_zero (s : State) (x_adc y_adc gpio duty : Nat)
    (hp : s.g_pwm_active = false) (hg : gpio = LED_R ∨ gpio = LED_B) :
    pwm_writes (main_loop_body s x_adc y_adc).effects = [(LED_R, 0), (LED_B, 0)]
      ∧ pwm_set_duty s gpio duty = [Effect.pwm_set_chan_level gpio 0] := by
  constructor
  · rw [main_loop_body_pwm_writes]
    simp [pwm_set_duty_level, hp, LED_R, LED_B]
  · rcases hg with h | h <;> simp [pwm_set_duty, pwm_set_duty_level, hp, h]

/-- Witness for C3 at samples 0 and 4095 and duty 65535 on `LED_R`. -/
theorem pwm_inactive_forces_zero_witness :
    pwm_writes (main_loop_body { State.init with g_pwm_active := false } 0 4095).effects
        = [(LED_R, 0), (LED_B, 0)]
      ∧ pwm_set_duty { State.init with g_pwm_active := false } LED_R 65535
        = [Effect.pwm_set_chan_level LED_R 0] :=
  pwm_inactive_forces_zero { State.init with g_pwm_active := false } 0 4095 LED_R 65535
    rfl (Or.inl rfl)

/-- C4 as stated fails: at sample 4095 the duty is not the saturated 65535. -/
theorem duty_at_adc_max_not_saturated :
    main_duty 4095 ≠ 65535 ∧ (main_loop_body State.init 4095 4095).duty_r ≠ 65535 := by
  decide

/-- C4 amended: the duty is the saturated 65535 at sample 0, and it is
65504 (2047 * 32, below saturation) at sample 4095; both for the red and for
the blue channel of a loop iteration. -/
theorem duty_at_range_ends (s : State) :
    main_duty 0 = 65535 ∧ main_duty 4095 = 65504
      ∧ (main_loop_body s 0 0).duty_r = 65535 ∧ (main_loop_body s 0 0).duty_b = 65535
      ∧ (main_loop_body s 4095 4095).duty_r = 65504
      ∧ (main_loop_body s 4095 4095).duty_b = 65504 := by
  refine ⟨by decide, by decide, ?_, ?_, ?_, ?_⟩ <;> rfl

/-- C5: `map_value(x, 4095, 0, 0, 56)` lies in `[0,56]` on `[0,4095]` and is
non-increasing there. -/
theorem map_value_x_bounded_antitone (a b : Int)
    (ha : 0 ≤ a) (hab : a ≤ b) (hb : b ≤ 4095) :
    (0 ≤ map_value a 4095 0 0 56 ∧ map_value a 4095 0 0 56 ≤ 56)
      ∧ (0 ≤ map_value b 4095 0 0 56 ∧ map_value b 4095 0 0 56 ≤ 56)
      ∧ map_value b 4095 0 0 56 ≤ map_value a 4095 0 0 56 := by
  rw [map_value_x_closed a (by omega), map_value_x_closed b hb]
  omega

/-- Witness for C5 at the samples 1000 and 3000. -/
theorem map_value_x_bounded_antitone_witness :
    (0 ≤ map_value 1000 4095 0 0 56 ∧ map_value 1000 4095 0 0 56 ≤ 56)
      ∧ (0 ≤ map_value 3000 4095 0 0 56 ∧ map_value 3000 4095 0 0 56 ≤ 56)
      ∧ map_value 3000 4095 0 0 56 ≤ map_value 1000 4095 0 0 56 :=
  map_value_x_bounded_antitone 1000 3000 (by decide) (by decide) (by decide)

/-- C6 as stated fails: with both samples at 2048 the cursor is at neither
midpoint, `square_x` is not 28 and `square_y` is not 60. -/
theorem centered_cursor_not_midpoint :
    (main_loop_body State.init 2048 2048).square_x ≠ 28
      ∧ (main_loop_body State.init 2048 2048).square_y ≠ 60 := by
  decide

/-- C6 amended: with both samples at 2048 a loop iteration computes
`duty_r = 0`, `duty_b = 0`, `square_x = 27` and `square_y = 61` (one below and
one above the midpoints 28 and 60, by the truncating division), writes level
0 to both PWM pins and then calls `update_display` with these coordinates and
the current `g_border_style`. -/
theorem centered_iteration (s : State) :
    (main_loop_body s 2048 2048).duty_r = 0
      ∧ (main_loop_body s 2048 2048).duty_b = 0
      ∧ (main_loop_body s 2048 2048).square_x = 27
      ∧ (main_loop_body s 2048 2048).square_y = 61
      ∧ (main_loop_body s 2048 2048).effects =
          [Effect.pwm_set_chan_level LED_R 0, Effect.pwm_set_chan_level LED_B 0]
            ++ update_display 27 61 s.g_border_style ++ [Effect.sleep_ms 40] := by
  refine ⟨rfl, rfl, by rw [square_x_eq]; decide, by rw [square_y_eq]; decide, ?_⟩
  have hx : map_value ((2048 : Nat) : Int) ADC_MAX 0 0 (HEIGHT - 8) = 27 := by decide
  have hy : map_value ((2048 : Nat) : Int) ADC_MAX 0 (WIDTH - 8) 0 = 61 := by decide
  have hd : main_duty 2048 = 0 := by decide
  simp only [main_loop_body, hx, hy, hd, pwm_set_duty, pwm_set_duty_level]
  cases s.g_pwm_active <;> simp

/-- C7: with `x_adc = 0` and `g_pwm_active` true, a loop iteration writes
level 65535 to `LED_R` (its first PWM write) and computes `square_x = 56`,
which no sample in `[0,4095]` exceeds. -/
theorem full_deflection_x (s : State) (x_adc y_adc : Nat)
    (hp : s.g_pwm_active = true) (hx : x_adc ≤ 4095) :
    (main_loop_body s 0 y_adc).duty_r = 65535
      ∧ pwm_writes (main_loop_body s 0 y_adc).effects
          = [(LED_R, 65535), (LED_B, main_duty y_adc % 65536)]
      ∧ (main_loop_body s 0 y_adc).square_x = 56
      ∧ (main_loop_body s x_adc y_adc).square_x ≤ 56 := by
  refine ⟨rfl, ?_, by rw [square_x_eq]; decide, ?_⟩
  · rw [main_loop_body_pwm_writes]
    have hd : main_duty 0 % 65536 = 65535 := by decide
    simp [pwm_set_duty_level, hp, hd]
  · rw [square_x_eq, map_value_x_closed _ (by omega)]
    omega

/-- Witness for C7 in the initial state, where PWM is active. -/
theorem full_deflection_x_witness :
    (main_loop_body State.init 0 2048).duty_r = 65535
      ∧ pwm_writes (main_loop_body State.init 0 2048).effects
          = [(LED_R, 65535), (LED_B, main_duty 2048 % 65536)]
      ∧ (main_loop_body State.init 0 2048).square_x = 56
      ∧ (main_loop_body State.init 1234 2048).square_x ≤ 56 :=
  full_deflection_x State.init 1234 2048 rfl (by decide)

/-- C10: for samples in `[0,4095]` the cursor corner satisfies
`0 ≤ square_x ≤ 56` and `0 ≤ square_y ≤ 120`, so the 8x8 square that
`update_display` draws at it has `square_x + 8 ≤ 64` and `square_y + 8 ≤ 128`;
`square_x` does not increase when `x_adc` grows and `square_y` does not
decrease when `y_adc` grows. -/
theorem cursor_within_buffer (s : State) (x_adc y_adc x2 y2 : Nat)
    (hx : x_adc ≤ x2) (hx2 : x2 ≤ 4095) (hy : y_adc ≤ y2) (hy2 : y2 ≤ 4095) :
    (0 ≤ (main_loop_body s x_adc y_adc).square_x
        ∧ (main_loop_body s x_adc y_adc).square_x ≤ 56)
      ∧ (0 ≤ (main_loop_body s x_adc y_adc).square_y
        ∧ (main_loop_body s x_adc y_adc).square_y ≤ 120)
      ∧ (main_loop_body s x_adc y_adc).square_x + 8 ≤ 64
      ∧ (main_loop_body s x_adc y_adc).square_y + 8 ≤ 128
      ∧ Effect.ssd1306_rect
          ⟨(main_loop_body s x_adc y_adc).square_x,
            (main_loop_body s x_adc y_adc).square_y, 8, 8, true, true⟩
          ∈ (main_loop_body s x_adc y_adc).effects
      ∧ (main_loop_body s x2 y2).square_x ≤ (main_loop_body s x_adc y_adc).square_x
      ∧ (main_loop_body s x_adc y_adc).square_y ≤ (main_loop_body s x2 y2).square_y := by
  have hmem : Effect.ssd1306_rect
      ⟨(main_loop_body s x_adc y_adc).square_x,
        (main_loop_body s x_adc y_adc).square_y, 8, 8, true, true⟩
      ∈ (main_loop_body s x_adc y_adc).effects := by
    simp [main_loop_body, update_display, draw_square, pwm_set_duty]
  have ex1 := map_value_x_closed (x_adc : Int) (by omega)
  have ex2 := map_value_x_closed (x2 : Int) (by omega)
  have ey1 := map_value_y_closed (y_adc : Int) (by omega)
  have ey2 := map_value_y_closed (y2 : Int) (by omega)
  refine ⟨?_, ?_, ?_, ?_, hmem, ?_, ?_⟩
  all_goals
    simp only [square_x_eq, square_y_eq, ex1, ex2, ey1, ey2]
    omega

/-- Witness for C10 at the samples (100, 200) and (3000, 4095). -/
theorem cursor_within_buffer_witness :
    (0 ≤ (main_loop_body State.init 100 200).square_x
        ∧ (main_loop_body State.init 100 200).square_x ≤ 56)
      ∧ (0 ≤ (main_loop_body State.init 100 200).square_y
        ∧ (main_loop_body State.init 100 200).square_y ≤ 120)
      ∧ (main_loop_body State.init 100 200).square_x + 8 ≤ 64
      ∧ (main_loop_body State.init 100 200).square_y + 8 ≤ 128
      ∧ Effect.ssd1306_rect
          ⟨(main_loop_body State.init 100 200).square_x,
            (main_loop_body State.init 100 200).square_y, 8, 8, true, true⟩
          ∈ (main_loop_body State.init 100 200).effects
      ∧ (main_loop_body State.init 3000 4095).square_x
          ≤ (main_loop_body State.init 100 200).square_x
      ∧ (main_loop_body State.init 100 200).square_y
          ≤ (main_loop_body State.init 3000 4095).square_y :=
  cursor_within_buffer State.init 100 200 3000 4095
    (by decide) (by decide) (by decide) (by decide)

end DisplayC
